import Mathlib

/-!
Shallow embedding of the lipton-legal-forms document pipeline
(src/api/docmosis_client.py, src/api/dropbox_client.py,
src/api/document_service.py).

The HTTP transport is modelled as an oracle: each outbound request is
decided by a value of type HttpOutcome supplied as an argument (a
successful response with status/content/text, or one of the exception
classes the Python code catches).  Byte strings are modelled as
List Nat, Python dicts carrying case data as association lists, and a
Python value that may be None as an Option.  Functions that make
network calls additionally return how many calls they made (0 or 1 for
the single-item operations, a trace of calls for the batch upload), so
that claims of the form "no network call occurs" are statable.
-/

/-- Outcome of one outbound HTTP POST, as distinguished by the Python
except-clauses: a response with a status code, raw body bytes and body
text, or a timeout / transport / unexpected exception carrying its
string description. -/
inductive HttpOutcome where
  | response (status : Nat) (content : List Nat) (text : String)
  | timeout (msg : String)
  | requestError (msg : String)
  | otherError (msg : String)
deriving Repr, DecidableEq

/-- Result dict of DocmosisClient.generate_document
(docmosis_client.py lines 56-63). -/
structure RenderResult where
  success : Bool
  document : Option (List Nat)
  filename : String
  size : Nat
  error : Option String
  template : String
deriving Repr, DecidableEq

/-- DocmosisClient.generate_document (docmosis_client.py lines 32-118):
builds the payload, posts it, and normalizes the outcome.  The payload
itself (template name, data, access key) does not influence the result
beyond the echoed filename/template fields, so the merge data is not a
parameter; the configured timeout appears in the timeout error text. -/
def generate_document (timeout : Nat) (template_name : String)
    (output_filename : String) (out : HttpOutcome) : RenderResult :=
  let result : RenderResult :=
    { success := false, document := none, filename := output_filename,
      size := 0, error := none, template := template_name }
  match out with
  | .response status content text =>
      if status == 200 then
        { result with success := true, document := some content,
                      size := content.length }
      else
        { result with
            error := some ("Docmosis API returned " ++ toString status ++ ": " ++ text) }
  | .timeout msg =>
      { result with
          error := some ("Request timeout after " ++ toString timeout ++ "s: " ++ msg) }
  | .requestError msg =>
      { result with error := some ("Request error: " ++ msg) }
  | .otherError msg =>
      { result with error := some ("Unexpected error: " ++ msg) }

/-- Results dict of DocmosisClient.generate_case_documents
(docmosis_client.py lines 149-154). -/
structure BatchGenResult where
  total : Nat
  successful : Nat
  failed : Nat
  documents : List RenderResult
deriving Repr, DecidableEq

/-- The default template list of generate_case_documents
(docmosis_client.py lines 143-147). -/
def defaultTemplates : List String :=
  ["ComplaintForm.docx", "DiscoveryRequest.docx", "SummonsForm.docx"]

/-- The for-loop of generate_case_documents (docmosis_client.py lines
158-174).  The transport oracle is indexed by the position of the call;
every iteration makes exactly one render call. -/
def genLoop (timeout : Nat) (case_id : String) (tr : Nat → HttpOutcome) :
    List String → Nat → BatchGenResult → BatchGenResult
  | [], _, res => res
  | template :: rest, i, res =>
      let output_filename :=
        case_id ++ "_" ++ (template.replace ".docx" "") ++ ".pdf"
      let doc_result := generate_document timeout template output_filename (tr i)
      genLoop timeout case_id tr rest (i + 1)
        { res with
            successful :=
              if doc_result.success then res.successful + 1 else res.successful,
            failed :=
              if doc_result.success then res.failed else res.failed + 1,
            documents := res.documents ++ [doc_result] }

/-- DocmosisClient.generate_case_documents (docmosis_client.py lines
120-181): substitutes the default template list for None, then renders
each template sequentially, aggregating counts. -/
def generate_case_documents (timeout : Nat) (case_id : String)
    (templates : Option (List String)) (tr : Nat → HttpOutcome) : BatchGenResult :=
  let ts := templates.getD defaultTemplates
  genLoop timeout case_id tr ts 0
    { total := ts.length, successful := 0, failed := 0, documents := [] }

/-- Configuration of DropboxClient read from the environment
(dropbox_client.py lines 18-31).  access_token is None when the
variable is unset; Python truthiness also treats an empty string as
missing (tokenTruthy below). -/
structure DropboxConfig where
  access_token : Option String
  base_path : String
  enabled : Bool
deriving Repr, DecidableEq

/-- Python truthiness of the optional access token: None and the empty
string are falsy. -/
def tokenTruthy : Option String → Bool
  | none => false
  | some s => !s.isEmpty

/-- DropboxClient.is_enabled (dropbox_client.py lines 184-186). -/
def is_enabled (cfg : DropboxConfig) : Bool :=
  cfg.enabled && tokenTruthy cfg.access_token

/-- Result dict of DropboxClient.upload_document
(dropbox_client.py lines 54-59). -/
structure UploadResult where
  success : Bool
  dropbox_path : Option String
  size : Nat
  error : Option String
deriving Repr, DecidableEq

/-- One left-to-right non-overlapping textual replacement of the
double slash by a single slash, over the character list of a string:
the semantics of the Python str.replace call with a two-character
pattern, written structurally so that it evaluates in the kernel. -/
def collapseDoubleSlash : List Char → List Char
  | '/' :: '/' :: rest => '/' :: collapseDoubleSlash rest
  | c :: rest => c :: collapseDoubleSlash rest
  | [] => []

/-- Destination path resolution of upload_document
(dropbox_client.py line 72): join with a slash, then one
left-to-right non-overlapping textual replacement of double slashes. -/
def resolveDropboxPath (base_path dropbox_path : String) : String :=
  String.mk (collapseDoubleSlash (base_path ++ "/" ++ dropbox_path).data)

/-- DropboxClient.upload_document (dropbox_client.py lines 33-113).
The second component counts network calls made by the call (0 when the
function returns before the POST, 1 otherwise — every branch of the
try-block first issues the POST). -/
def upload_document (cfg : DropboxConfig) (document_bytes : List Nat)
    (dropbox_path : String) (out : HttpOutcome) : UploadResult × Nat :=
  let result : UploadResult :=
    { success := false, dropbox_path := none, size := 0, error := none }
  if !cfg.enabled then
    ({ result with error := some "Dropbox upload disabled" }, 0)
  else if !tokenTruthy cfg.access_token then
    ({ result with error := some "Dropbox access token not configured" }, 0)
  else
    let full_path := resolveDropboxPath cfg.base_path dropbox_path
    match out with
    | .response status _ text =>
        if status == 200 then
          ({ result with success := true, dropbox_path := some full_path,
                         size := document_bytes.length }, 1)
        else
          ({ result with
               error := some ("Dropbox API returned " ++ toString status ++ ": " ++ text) }, 1)
    | .timeout msg =>
        ({ result with error := some ("Upload timeout: " ++ msg) }, 1)
    | .requestError msg =>
        ({ result with error := some ("Request error: " ++ msg) }, 1)
    | .otherError msg =>
        ({ result with error := some ("Unexpected error: " ++ msg) }, 1)

/-- One element of the uploads list of upload_case_documents.  The
synthetic skip entry (dropbox_client.py lines 151-155) carries only
filename, success and error, so dropbox_path and size are optional
here; the merged entry (lines 172-175) carries all of them. -/
structure UploadEntry where
  filename : String
  success : Bool
  dropbox_path : Option String
  size : Option Nat
  error : Option String
deriving Repr, DecidableEq

/-- The synthetic failed-upload entry appended for a document that did
not render successfully (dropbox_client.py lines 151-155). -/
def syntheticEntry (filename : String) : UploadEntry :=
  { filename := filename, success := false, dropbox_path := none,
    size := none, error := some "Document generation failed" }

/-- The merged per-upload entry filename plus upload_result
(dropbox_client.py lines 172-175). -/
def mergeEntry (filename : String) (u : UploadResult) : UploadEntry :=
  { filename := filename, success := u.success, dropbox_path := u.dropbox_path,
    size := some u.size, error := u.error }

/-- Results dict of DropboxClient.upload_case_documents
(dropbox_client.py lines 134-139). -/
structure UploadBatchResult where
  total : Nat
  successful : Nat
  failed : Nat
  uploads : List UploadEntry
deriving Repr, DecidableEq

/-- The skip condition of the upload loop (dropbox_client.py line 148):
the render did not succeed or carries no (or empty) bytes — Python
truthiness on the document field. -/
def uploadSkip (doc : RenderResult) : Bool :=
  !doc.success || !(match doc.document with
                    | none => false
                    | some bs => !bs.isEmpty)

/-- A record of one network upload call made by the batch loop: the
bytes sent and the relative dropbox path passed to upload_document. -/
structure UploadCall where
  bytes : List Nat
  path : String
deriving Repr, DecidableEq

/-- The for-loop of upload_case_documents (dropbox_client.py lines
147-175).  The accumulator carries the results dict and the trace of
network calls made so far; the transport oracle is indexed by the
number of calls already made. -/
def uploadLoop (cfg : DropboxConfig) (case_id : String) (tr : Nat → HttpOutcome) :
    List RenderResult → UploadBatchResult × List UploadCall →
    UploadBatchResult × List UploadCall
  | [], acc => acc
  | doc :: rest, acc =>
      let res := acc.1
      let calls := acc.2
      if uploadSkip doc then
        uploadLoop cfg case_id tr rest
          ({ res with failed := res.failed + 1,
                      uploads := res.uploads ++ [syntheticEntry doc.filename] },
           calls)
      else
        let dropbox_path := "Cases/" ++ case_id ++ "/" ++ doc.filename
        let pr := upload_document cfg (doc.document.getD []) dropbox_path
                    (tr calls.length)
        let calls' :=
          if pr.2 == 1 then
            calls ++ [{ bytes := doc.document.getD [], path := dropbox_path }]
          else calls
        uploadLoop cfg case_id tr rest
          ({ res with
               successful :=
                 if pr.1.success then res.successful + 1 else res.successful,
               failed :=
                 if pr.1.success then res.failed else res.failed + 1,
               uploads := res.uploads ++ [mergeEntry doc.filename pr.1] },
           calls')

/-- DropboxClient.upload_case_documents (dropbox_client.py lines
115-182): initializes the counters from the input length, returns the
zero-activity result immediately when disabled, otherwise iterates the
prior render results.  The second component is the trace of network
calls made. -/
def upload_case_documents (cfg : DropboxConfig) (case_id : String)
    (documents : List RenderResult) (tr : Nat → HttpOutcome) :
    UploadBatchResult × List UploadCall :=
  let init : UploadBatchResult :=
    { total := documents.length, successful := 0, failed := 0, uploads := [] }
  if !cfg.enabled then (init, [])
  else uploadLoop cfg case_id tr documents (init, [])

/-- Case data as returned by the JSON builder: a Python dict modelled
as an association list.  Python truthiness of the dict is emptiness. -/
def CaseData : Type := List (String × String)

/-- Python truthiness of an optional case-data dict: None and the
empty dict are falsy (the if-not checks at document_service.py lines
47 and 98). -/
def dictTruthy : Option CaseData → Bool
  | none => false
  | some d => !d.isEmpty

/-- DocumentGenerationService.fetch_case_data (document_service.py
lines 31-56): calls the JSON builder inside a try-block; a raised
exception or a falsy result both become None.  The provider's
behaviour (a value or a raised exception with its message) is the
argument. -/
def fetch_case_data (provider : Except String (Option CaseData)) : Option CaseData :=
  match provider with
  | .error _ => none
  | .ok case_json => if dictTruthy case_json then case_json else none

/-- Result dict of generate_documents_for_case (document_service.py
lines 82-91). -/
structure PipelineResult where
  case_id : String
  success : Bool
  documents_generated : Nat
  documents_uploaded : Nat
  documents : List RenderResult
  dropbox_uploads : List UploadEntry
  error : Option String
  timestamp : String
deriving Repr, DecidableEq

/-- DocumentGenerationService.generate_documents_for_case
(document_service.py lines 58-153).  The two awaited collaborator
calls inside the try-block are passed as Except values: ok is the
value the call returned, error is an exception it raised, which the
top-level except-clause turns into the error field.  fetch_case_data
never raises (it catches internally), so its Option result is passed
directly.  The progressive mutation of the Python result dict is
explicit: fields assigned before an exception point keep their values
in the (.error) branches. -/
def generate_documents_for_case (case_id timestamp : String)
    (case_data : Option CaseData)
    (gen : Except String BatchGenResult)
    (upload_to_dropbox : Bool) (dropbox_enabled : Bool)
    (upl : Except String UploadBatchResult) : PipelineResult :=
  let result : PipelineResult :=
    { case_id := case_id, success := false, documents_generated := 0,
      documents_uploaded := 0, documents := [], dropbox_uploads := [],
      error := none, timestamp := timestamp }
  if !dictTruthy case_data then
    { result with error := some ("Case not found: " ++ case_id) }
  else
    match gen with
    | .error e => { result with error := some ("Unexpected error: " ++ e) }
    | .ok doc_results =>
        let r1 := { result with documents := doc_results.documents,
                                documents_generated := doc_results.successful }
        if doc_results.successful == 0 then
          { r1 with error := some "No documents generated successfully" }
        else if upload_to_dropbox && dropbox_enabled then
          match upl with
          | .error e => { r1 with error := some ("Unexpected error: " ++ e) }
          | .ok upload_results =>
              { r1 with dropbox_uploads := upload_results.uploads,
                        documents_uploaded := upload_results.successful,
                        success := true }
        else { r1 with success := true }

/-- One full run of generate_documents_for_case wired to the in-repo
collaborators, which are total and never raise: the render batch is
DocmosisClient.generate_case_documents over the render transport, and
the upload batch is DropboxClient.upload_case_documents over the
render batch's documents list and the upload transport, gated in the
orchestrator by upload_to_dropbox and DropboxClient.is_enabled. -/
def run_pipeline (timeout : Nat) (cfg : DropboxConfig)
    (case_id timestamp : String) (case_data : Option CaseData)
    (templates : Option (List String))
    (renderTr uploadTr : Nat → HttpOutcome)
    (upload_to_dropbox : Bool) : PipelineResult :=
  let doc_results := generate_case_documents timeout case_id templates renderTr
  let upload_results :=
    upload_case_documents cfg case_id doc_results.documents uploadTr
  generate_documents_for_case case_id timestamp case_data
    (.ok doc_results) upload_to_dropbox (is_enabled cfg) (.ok upload_results.1)

/-! Helper lemmas about the render batch loop. -/

theorem genLoop_total (timeout : Nat) (case_id : String) (tr : Nat → HttpOutcome)
    (l : List String) : ∀ (i : Nat) (res : BatchGenResult),
    (genLoop timeout case_id tr l i res).total = res.total := by
  induction l with
  | nil => intro i res; simp [genLoop]
  | cons t rest ih =>
      intro i res
      simp only [genLoop]
      exact (ih (i + 1) _).trans (by simp)

theorem genLoop_sum (timeout : Nat) (case_id : String) (tr : Nat → HttpOutcome)
    (l : List String) : ∀ (i : Nat) (res : BatchGenResult),
    (genLoop timeout case_id tr l i res).successful
      + (genLoop timeout case_id tr l i res).failed
      = res.successful + res.failed + l.length := by
  induction l with
  | nil => intro i res; simp [genLoop]
  | cons t rest ih =>
      intro i res
      simp only [genLoop]
      refine (ih (i + 1) _).trans ?_
      simp only [List.length_cons]
      split <;> omega

theorem genLoop_docs_len (timeout : Nat) (case_id : String) (tr : Nat → HttpOutcome)
    (l : List String) : ∀ (i : Nat) (res : BatchGenResult),
    (genLoop timeout case_id tr l i res).documents.length
      = res.documents.length + l.length := by
  induction l with
  | nil => intro i res; simp [genLoop]
  | cons t rest ih =>
      intro i res
      simp only [genLoop]
      refine (ih (i + 1) _).trans ?_
      simp
      omega

/-! Helper lemmas about the upload batch loop. -/

theorem uploadLoop_total (cfg : DropboxConfig) (case_id : String)
    (tr : Nat → HttpOutcome) (l : List RenderResult) :
    ∀ (res : UploadBatchResult) (calls : List UploadCall),
    (uploadLoop cfg case_id tr l (res, calls)).1.total = res.total := by
  induction l with
  | nil => intro res calls; simp [uploadLoop]
  | cons doc rest ih =>
      intro res calls
      simp only [uploadLoop]
      split
      · exact (ih _ _).trans (by simp)
      · exact (ih _ _).trans (by simp)

theorem uploadLoop_sum (cfg : DropboxConfig) (case_id : String)
    (tr : Nat → HttpOutcome) (l : List RenderResult) :
    ∀ (res : UploadBatchResult) (calls : List UploadCall),
    (uploadLoop cfg case_id tr l (res, calls)).1.successful
      + (uploadLoop cfg case_id tr l (res, calls)).1.failed
      = res.successful + res.failed + l.length := by
  induction l with
  | nil => intro res calls; simp [uploadLoop]
  | cons doc rest ih =>
      intro res calls
      simp only [uploadLoop]
      split
      · refine (ih _ _).trans ?_
        simp only [List.length_cons]
        omega
      · refine (ih _ _).trans ?_
        simp only [List.length_cons]
        split <;> omega

theorem uploadLoop_uploads_len (cfg : DropboxConfig) (case_id : String)
    (tr : Nat → HttpOutcome) (l : List RenderResult) :
    ∀ (res : UploadBatchResult) (calls : List UploadCall),
    (uploadLoop cfg case_id tr l (res, calls)).1.uploads.length
      = res.uploads.length + l.length := by
  induction l with
  | nil => intro res calls; simp [uploadLoop]
  | cons doc rest ih =>
      intro res calls
      simp only [uploadLoop]
      split
      · refine (ih _ _).trans ?_
        simp
        omega
      · refine (ih _ _).trans ?_
        simp
        omega

/-- C1 (amended): for generate_case_documents over any template list
the returned counts satisfy successful + failed = total = length of
the input list (the default list when none is given), and total equals
the length of the per-item result list; for upload_case_documents the
same invariant holds whenever the upload client is enabled.  (As
stated, the claim fails for a disabled upload client over a non-empty
documents list, where successful = failed = 0 and uploads is empty but
total is the input length; see C1_counterexample.) -/
theorem C1_batch_count_invariant
    (timeout : Nat) (case_id : String) (templates : Option (List String))
    (tr : Nat → HttpOutcome)
    (cfg : DropboxConfig) (case_id2 : String) (documents : List RenderResult)
    (tru : Nat → HttpOutcome) :
    ((generate_case_documents timeout case_id templates tr).successful
        + (generate_case_documents timeout case_id templates tr).failed
        = (generate_case_documents timeout case_id templates tr).total ∧
      (generate_case_documents timeout case_id templates tr).total
        = (templates.getD defaultTemplates).length ∧
      (generate_case_documents timeout case_id templates tr).documents.length
        = (generate_case_documents timeout case_id templates tr).total) ∧
    (cfg.enabled = true →
      (upload_case_documents cfg case_id2 documents tru).1.successful
          + (upload_case_documents cfg case_id2 documents tru).1.failed
          = (upload_case_documents cfg case_id2 documents tru).1.total ∧
        (upload_case_documents cfg case_id2 documents tru).1.total
          = documents.length ∧
        (upload_case_documents cfg case_id2 documents tru).1.uploads.length
          = (upload_case_documents cfg case_id2 documents tru).1.total) := by
  constructor
  · have h1 := genLoop_sum timeout case_id tr (templates.getD defaultTemplates) 0
      { total := (templates.getD defaultTemplates).length, successful := 0,
        failed := 0, documents := [] }
    have h2 := genLoop_total timeout case_id tr (templates.getD defaultTemplates) 0
      { total := (templates.getD defaultTemplates).length, successful := 0,
        failed := 0, documents := [] }
    have h3 := genLoop_docs_len timeout case_id tr (templates.getD defaultTemplates) 0
      { total := (templates.getD defaultTemplates).length, successful := 0,
        failed := 0, documents := [] }
    simp only [generate_case_documents]
    simp at h1 h2 h3
    exact ⟨by omega, by omega, by omega⟩
  · intro hEn
    have h1 := uploadLoop_sum cfg case_id2 tru documents
      { total := documents.length, successful := 0, failed := 0, uploads := [] } []
    have h2 := uploadLoop_total cfg case_id2 tru documents
      { total := documents.length, successful := 0, failed := 0, uploads := [] } []
    have h3 := uploadLoop_uploads_len cfg case_id2 tru documents
      { total := documents.length, successful := 0, failed := 0, uploads := [] } []
    simp only [upload_case_documents, hEn, Bool.not_true, Bool.false_eq_true,
      if_false]
    simp at h1 h2 h3
    exact ⟨by omega, by omega, by omega⟩

/-- C1 witness: the invariant evaluated on a concrete run, with the
enabledness hypothesis of the upload half discharged on an enabled
configuration. -/
theorem C1_batch_count_invariant_witness :
    ((generate_case_documents 60 "abc-123" none
        (fun _ => HttpOutcome.response 200 [1] "")).successful
      + (generate_case_documents 60 "abc-123" none
        (fun _ => HttpOutcome.response 200 [1] "")).failed
      = (generate_case_documents 60 "abc-123" none
        (fun _ => HttpOutcome.response 200 [1] "")).total) ∧
    ((upload_case_documents
        { access_token := some "tok", base_path := "/Apps/LegalFormApp",
          enabled := true } "abc-123"
        [{ success := false, document := none, filename := "f.pdf", size := 0,
           error := some "e", template := "T.docx" }]
        (fun _ => HttpOutcome.response 200 [] "")).1.successful
      + (upload_case_documents
        { access_token := some "tok", base_path := "/Apps/LegalFormApp",
          enabled := true } "abc-123"
        [{ success := false, document := none, filename := "f.pdf", size := 0,
           error := some "e", template := "T.docx" }]
        (fun _ => HttpOutcome.response 200 [] "")).1.failed
      = (upload_case_documents
        { access_token := some "tok", base_path := "/Apps/LegalFormApp",
          enabled := true } "abc-123"
        [{ success := false, document := none, filename := "f.pdf", size := 0,
           error := some "e", template := "T.docx" }]
        (fun _ => HttpOutcome.response 200 [] "")).1.total) :=
  ⟨(C1_batch_count_invariant 60 "abc-123" none
      (fun _ => HttpOutcome.response 200 [1] "")
      { access_token := some "tok", base_path := "/Apps/LegalFormApp",
        enabled := true } "abc-123"
      [{ success := false, document := none, filename := "f.pdf", size := 0,
         error := some "e", template := "T.docx" }]
      (fun _ => HttpOutcome.response 200 [] "")).1.1,
   by
    have h := ((C1_batch_count_invariant 60 "abc-123" none
      (fun _ => HttpOutcome.response 200 [1] "")
      { access_token := some "tok", base_path := "/Apps/LegalFormApp",
        enabled := true } "abc-123"
      [{ success := false, document := none, filename := "f.pdf", size := 0,
         error := some "e", template := "T.docx" }]
      (fun _ => HttpOutcome.response 200 [] "")).2 rfl).1
    omega⟩

/-- C1 counterexample: on a disabled upload client and a one-element
documents list, upload_case_documents returns successful = failed = 0
and an empty uploads list while total = 1, so successful + failed is
not total and the per-item list length is not total, refuting the
claim as stated. -/
theorem C1_counterexample :
    (upload_case_documents
        { access_token := none, base_path := "/Apps/LegalFormApp",
          enabled := false } "abc-123"
        [{ success := true, document := some [1], filename := "f.pdf", size := 1,
           error := none, template := "T.docx" }]
        (fun _ => HttpOutcome.response 200 [] "")).1.successful
      + (upload_case_documents
        { access_token := none, base_path := "/Apps/LegalFormApp",
          enabled := false } "abc-123"
        [{ success := true, document := some [1], filename := "f.pdf", size := 1,
           error := none, template := "T.docx" }]
        (fun _ => HttpOutcome.response 200 [] "")).1.failed
      ≠ (upload_case_documents
        { access_token := none, base_path := "/Apps/LegalFormApp",
          enabled := false } "abc-123"
        [{ success := true, document := some [1], filename := "f.pdf", size := 1,
           error := none, template := "T.docx" }]
        (fun _ => HttpOutcome.response 200 [] "")).1.total ∧
    (upload_case_documents
        { access_token := none, base_path := "/Apps/LegalFormApp",
          enabled := false } "abc-123"
        [{ success := true, document := some [1], filename := "f.pdf", size := 1,
           error := none, template := "T.docx" }]
        (fun _ => HttpOutcome.response 200 [] "")).1.uploads.length
      ≠ (upload_case_documents
        { access_token := none, base_path := "/Apps/LegalFormApp",
          enabled := false } "abc-123"
        [{ success := true, document := some [1], filename := "f.pdf", size := 1,
           error := none, template := "T.docx" }]
        (fun _ => HttpOutcome.response 200 [] "")).1.total := by
  constructor <;> decide

theorem genLoop_succ_countP (timeout : Nat) (case_id : String)
    (tr : Nat → HttpOutcome) (l : List String) :
    ∀ (i : Nat) (res : BatchGenResult),
    res.successful = res.documents.countP (fun d => d.success) →
    (genLoop timeout case_id tr l i res).successful
      = (genLoop timeout case_id tr l i res).documents.countP (fun d => d.success) := by
  induction l with
  | nil => intro i res h; simpa [genLoop] using h
  | cons t rest ih =>
      intro i res h
      simp only [genLoop]
      refine ih (i + 1) _ ?_
      simp only [List.countP_append, List.countP_cons, List.countP_nil, h]
      split <;> simp_all

/-- C2: in every run of generate_documents_for_case (wired to the
in-repo render and upload clients, which are total functions) in which
case data is found, the overall success flag is true exactly when at
least one document rendered successfully; upload outcomes never affect
it. -/
theorem C2_overall_success_iff (timeout : Nat) (cfg : DropboxConfig)
    (case_id timestamp : String) (case_data : Option CaseData)
    (templates : Option (List String)) (renderTr uploadTr : Nat → HttpOutcome)
    (upload_to_dropbox : Bool)
    (hfound : dictTruthy case_data = true) :
    ((run_pipeline timeout cfg case_id timestamp case_data templates renderTr
        uploadTr upload_to_dropbox).success = true
      ↔ ∃ d ∈ (generate_case_documents timeout case_id templates renderTr).documents,
          d.success = true) := by
  have hc : (generate_case_documents timeout case_id templates renderTr).successful
      = (generate_case_documents timeout case_id templates renderTr).documents.countP
          (fun d => d.success) := by
    simp only [generate_case_documents]
    exact genLoop_succ_countP timeout case_id renderTr _ 0 _ (by simp)
  rw [← List.countP_pos_iff, ← hc]
  simp only [run_pipeline, generate_documents_for_case, hfound, Bool.not_true,
    Bool.false_eq_true, if_false]
  by_cases h0 : (generate_case_documents timeout case_id templates renderTr).successful = 0
  · simp [h0]
  · have hpos : 0 < (generate_case_documents timeout case_id templates renderTr).successful :=
      Nat.pos_of_ne_zero h0
    simp only [h0, if_false, Nat.beq_eq_true_eq]
    split <;> simp [hpos]

/-- C2 witness: the equivalence evaluated on a concrete run with found
case data, one succeeding and one failing render. -/
theorem C2_overall_success_iff_witness :
    (run_pipeline 60
        { access_token := some "tok", base_path := "/Apps/LegalFormApp",
          enabled := true }
        "abc-123" "2026-10-12T00:00:00" (some [("plaintiff", "A")])
        (some ["ComplaintForm.docx", "SummonsForm.docx"])
        (fun i => if i == 0 then HttpOutcome.response 200 [1, 2] ""
                  else HttpOutcome.response 500 [] "boom")
        (fun _ => HttpOutcome.timeout "slow") true).success = true
      ↔ ∃ d ∈ (generate_case_documents 60 "abc-123"
            (some ["ComplaintForm.docx", "SummonsForm.docx"])
            (fun i => if i == 0 then HttpOutcome.response 200 [1, 2] ""
                      else HttpOutcome.response 500 [] "boom")).documents,
          d.success = true :=
  C2_overall_success_iff 60
    { access_token := some "tok", base_path := "/Apps/LegalFormApp",
      enabled := true }
    "abc-123" "2026-10-12T00:00:00" (some [("plaintiff", "A")])
    (some ["ComplaintForm.docx", "SummonsForm.docx"])
    (fun i => if i == 0 then HttpOutcome.response 200 [1, 2] ""
              else HttpOutcome.response 500 [] "boom")
    (fun _ => HttpOutcome.timeout "slow") true (by decide)

/-- C3: generate_documents_for_case is a total function of its inputs
(so no exception ever reaches the caller and every field of the
result structure is populated), and when a collaborator raises — the
render batch call, or the upload batch call once it is reached — the
top-level except-clause records the exception description prefixed
with the Python f-string text in the error field, with overall success
false; fields assigned before the raise (documents and
documents_generated in the upload case) keep their values. -/
theorem C3_top_level_catch (case_id timestamp : String)
    (case_data : Option CaseData) (upload_to_dropbox dropbox_enabled : Bool)
    (e : String) (dr : BatchGenResult) (upl : Except String UploadBatchResult)
    (hfound : dictTruthy case_data = true) :
    ((generate_documents_for_case case_id timestamp case_data (.error e)
        upload_to_dropbox dropbox_enabled upl).error
        = some ("Unexpected error: " ++ e) ∧
      (generate_documents_for_case case_id timestamp case_data (.error e)
        upload_to_dropbox dropbox_enabled upl).success = false) ∧
    (0 < dr.successful → upload_to_dropbox = true → dropbox_enabled = true →
      (generate_documents_for_case case_id timestamp case_data (.ok dr)
          upload_to_dropbox dropbox_enabled (.error e)).error
          = some ("Unexpected error: " ++ e) ∧
        (generate_documents_for_case case_id timestamp case_data (.ok dr)
          upload_to_dropbox dropbox_enabled (.error e)).success = false ∧
        (generate_documents_for_case case_id timestamp case_data (.ok dr)
          upload_to_dropbox dropbox_enabled (.error e)).documents = dr.documents ∧
        (generate_documents_for_case case_id timestamp case_data (.ok dr)
          upload_to_dropbox dropbox_enabled (.error e)).documents_generated
          = dr.successful) := by
  constructor
  · constructor <;> simp [generate_documents_for_case, hfound]
  · intro hpos hu hd
    have h0 : (dr.successful == 0) = false := by
      simp only [beq_eq_false_iff_ne, ne_eq]
      omega
    refine ⟨?_, ?_, ?_, ?_⟩ <;>
      simp [generate_documents_for_case, hfound, hu, hd, h0]

/-- C3 witness: the theorem applied at a concrete found case, a
concrete render-batch exception and a concrete upload-batch exception. -/
theorem C3_top_level_catch_witness :
    ((generate_documents_for_case "abc-123" "2026-10-12T00:00:00"
        (some [("plaintiff", "A")]) (.error "db busy") true true
        (.ok { total := 0, successful := 0, failed := 0, uploads := [] })).error
        = some ("Unexpected error: " ++ "db busy") ∧
      (generate_documents_for_case "abc-123" "2026-10-12T00:00:00"
        (some [("plaintiff", "A")]) (.error "db busy") true true
        (.ok { total := 0, successful := 0, failed := 0, uploads := [] })).success
        = false) ∧
    ((generate_documents_for_case "abc-123" "2026-10-12T00:00:00"
        (some [("plaintiff", "A")])
        (.ok { total := 1, successful := 1, failed := 0,
               documents := [{ success := true, document := some [1],
                               filename := "f.pdf", size := 1, error := none,
                               template := "T.docx" }] })
        true true (.error "db busy")).error
        = some ("Unexpected error: " ++ "db busy") ∧
      (generate_documents_for_case "abc-123" "2026-10-12T00:00:00"
        (some [("plaintiff", "A")])
        (.ok { total := 1, successful := 1, failed := 0,
               documents := [{ success := true, document := some [1],
                               filename := "f.pdf", size := 1, error := none,
                               template := "T.docx" }] })
        true true (.error "db busy")).success
        = false) := by
  have h := C3_top_level_catch "abc-123" "2026-10-12T00:00:00"
    (some [("plaintiff", "A")]) true true "db busy"
    { total := 1, successful := 1, failed := 0,
      documents := [{ success := true, document := some [1],
                      filename := "f.pdf", size := 1, error := none,
                      template := "T.docx" }] }
    (.ok { total := 0, successful := 0, failed := 0, uploads := [] })
    (by decide)
  exact ⟨h.1, (h.2 (by decide) rfl rfl).1, (h.2 (by decide) rfl rfl).2.1⟩

/-- C4: for every HTTP outcome, the render result of generate_document
satisfies mutual exclusion: success implies document bytes present and
error absent, and failure implies document bytes absent. -/
theorem C4_render_mutual_exclusion (timeout : Nat)
    (template_name output_filename : String) (out : HttpOutcome) :
    ((generate_document timeout template_name output_filename out).success = true →
      (generate_document timeout template_name output_filename out).document.isSome
          = true ∧
        (generate_document timeout template_name output_filename out).error = none) ∧
    ((generate_document timeout template_name output_filename out).success = false →
      (generate_document timeout template_name output_filename out).document = none) := by
  cases out with
  | response status content text =>
      cases h : status == 200 <;> simp [generate_document, h]
  | timeout msg => simp [generate_document]
  | requestError msg => simp [generate_document]
  | otherError msg => simp [generate_document]

/-- C4 witness: the success half discharged on a 200 response and the
failure half discharged on a 500 response. -/
theorem C4_render_mutual_exclusion_witness :
    ((generate_document 60 "ComplaintForm.docx" "abc-123_ComplaintForm.pdf"
        (HttpOutcome.response 200 [37, 80, 68, 70] "")).document.isSome = true ∧
      (generate_document 60 "ComplaintForm.docx" "abc-123_ComplaintForm.pdf"
        (HttpOutcome.response 200 [37, 80, 68, 70] "")).error = none) ∧
    (generate_document 60 "ComplaintForm.docx" "abc-123_ComplaintForm.pdf"
        (HttpOutcome.response 500 [] "server error")).document = none :=
  ⟨(C4_render_mutual_exclusion 60 "ComplaintForm.docx" "abc-123_ComplaintForm.pdf"
      (HttpOutcome.response 200 [37, 80, 68, 70] "")).1 (by decide),
   (C4_render_mutual_exclusion 60 "ComplaintForm.docx" "abc-123_ComplaintForm.pdf"
      (HttpOutcome.response 500 [] "server error")).2 (by decide)⟩

/-- C5: when the case-data fetch returned nothing, the pipeline result
has success false, zero documents generated, an error message
containing "not found", and it does not depend on the behaviour of the
render client (which is therefore never invoked). -/
theorem C5_case_not_found (case_id timestamp : String)
    (gen gen' : Except String BatchGenResult)
    (upload_to_dropbox dropbox_enabled : Bool)
    (upl : Except String UploadBatchResult) :
    (generate_documents_for_case case_id timestamp none gen
        upload_to_dropbox dropbox_enabled upl).success = false ∧
    (generate_documents_for_case case_id timestamp none gen
        upload_to_dropbox dropbox_enabled upl).documents_generated = 0 ∧
    (∃ a b, (generate_documents_for_case case_id timestamp none gen
        upload_to_dropbox dropbox_enabled upl).error = some (a ++ "not found" ++ b)) ∧
    generate_documents_for_case case_id timestamp none gen
        upload_to_dropbox dropbox_enabled upl
      = generate_documents_for_case case_id timestamp none gen'
        upload_to_dropbox dropbox_enabled upl := by
  have herr : (generate_documents_for_case case_id timestamp none gen
      upload_to_dropbox dropbox_enabled upl).error
      = some ("Case not found: " ++ case_id) := by
    simp [generate_documents_for_case, dictTruthy]
  refine ⟨by simp [generate_documents_for_case, dictTruthy],
    by simp [generate_documents_for_case, dictTruthy],
    ⟨"Case ", ": " ++ case_id, ?_⟩,
    by simp [generate_documents_for_case, dictTruthy]⟩
  rw [herr, ← String.append_assoc]
  rfl

/-- C6: with the upload component disabled, upload_case_documents on a
non-empty documents list returns total equal to the input length,
successful and failed both zero, an empty uploads list (so no
synthetic per-document entries), and an empty network-call trace. -/
theorem C6_disabled_batch_zero_activity (cfg : DropboxConfig)
    (case_id : String) (documents : List RenderResult) (tr : Nat → HttpOutcome)
    (hdis : cfg.enabled = false) (hne : documents ≠ []) :
    (upload_case_documents cfg case_id documents tr).1.total = documents.length ∧
    (upload_case_documents cfg case_id documents tr).1.successful = 0 ∧
    (upload_case_documents cfg case_id documents tr).1.failed = 0 ∧
    (upload_case_documents cfg case_id documents tr).1.uploads = [] ∧
    (upload_case_documents cfg case_id documents tr).2 = [] := by
  simp [upload_case_documents, hdis]

/-- C6 witness: the disabled batch evaluated on a one-element list. -/
theorem C6_disabled_batch_zero_activity_witness :
    (upload_case_documents
        { access_token := some "tok", base_path := "/Apps/LegalFormApp",
          enabled := false } "abc-123"
        [{ success := true, document := some [1], filename := "f.pdf", size := 1,
           error := none, template := "T.docx" }]
        (fun _ => HttpOutcome.response 200 [] "")).1.total = 1 ∧
    (upload_case_documents
        { access_token := some "tok", base_path := "/Apps/LegalFormApp",
          enabled := false } "abc-123"
        [{ success := true, document := some [1], filename := "f.pdf", size := 1,
           error := none, template := "T.docx" }]
        (fun _ => HttpOutcome.response 200 [] "")).1.uploads = [] := by
  have h := C6_disabled_batch_zero_activity
    { access_token := some "tok", base_path := "/Apps/LegalFormApp",
      enabled := false } "abc-123"
    [{ success := true, document := some [1], filename := "f.pdf", size := 1,
       error := none, template := "T.docx" }]
    (fun _ => HttpOutcome.response 200 [] "") rfl (by decide)
  exact ⟨h.1, h.2.2.2.1⟩

/-- C7: a disabled upload client makes upload_document return failure
with an error mentioning "disabled" and no network call, for any bytes,
path and transport behaviour; an enabled client without a (truthy)
access token returns failure naming the unconfigured token, likewise
without a network call. -/
theorem C7_upload_guards (cfg : DropboxConfig) (document_bytes : List Nat)
    (dropbox_path : String) (out : HttpOutcome) :
    (cfg.enabled = false →
      (upload_document cfg document_bytes dropbox_path out).1.success = false ∧
      (∃ a b, (upload_document cfg document_bytes dropbox_path out).1.error
          = some (a ++ "disabled" ++ b)) ∧
      (upload_document cfg document_bytes dropbox_path out).2 = 0) ∧
    (cfg.enabled = true → tokenTruthy cfg.access_token = false →
      (upload_document cfg document_bytes dropbox_path out).1.success = false ∧
      (upload_document cfg document_bytes dropbox_path out).1.error
          = some "Dropbox access token not configured" ∧
      (upload_document cfg document_bytes dropbox_path out).2 = 0) := by
  constructor
  · intro hdis
    refine ⟨by simp [upload_document, hdis], ⟨"Dropbox upload ", "", ?_⟩,
      by simp [upload_document, hdis]⟩
    simp [upload_document, hdis]
  · intro hen htok
    refine ⟨?_, ?_, ?_⟩ <;> simp [upload_document, hen, htok]

/-- C7 witness: both guards discharged on concrete configurations. -/
theorem C7_upload_guards_witness :
    ((upload_document
        { access_token := some "tok", base_path := "/Apps/LegalFormApp",
          enabled := false } [1, 2] "Cases/abc-123/f.pdf"
        (HttpOutcome.response 200 [] "")).1.success = false ∧
      (upload_document
        { access_token := some "tok", base_path := "/Apps/LegalFormApp",
          enabled := false } [1, 2] "Cases/abc-123/f.pdf"
        (HttpOutcome.response 200 [] "")).2 = 0) ∧
    ((upload_document
        { access_token := none, base_path := "/Apps/LegalFormApp",
          enabled := true } [1, 2] "Cases/abc-123/f.pdf"
        (HttpOutcome.response 200 [] "")).1.error
        = some "Dropbox access token not configured" ∧
      (upload_document
        { access_token := none, base_path := "/Apps/LegalFormApp",
          enabled := true } [1, 2] "Cases/abc-123/f.pdf"
        (HttpOutcome.response 200 [] "")).2 = 0) := by
  have h1 := (C7_upload_guards
    { access_token := some "tok", base_path := "/Apps/LegalFormApp",
      enabled := false } [1, 2] "Cases/abc-123/f.pdf"
    (HttpOutcome.response 200 [] "")).1 rfl
  have h2 := (C7_upload_guards
    { access_token := none, base_path := "/Apps/LegalFormApp",
      enabled := true } [1, 2] "Cases/abc-123/f.pdf"
    (HttpOutcome.response 200 [] "")).2 rfl (by decide)
  exact ⟨⟨h1.1, h1.2.2⟩, ⟨h2.2.1, h2.2.2⟩⟩

/-- C9 counterexample: the single textual replacement of doubled
slashes is non-overlapping and left-to-right, so a run of three
separators in the joined path leaves a doubled separator in the
result, refuting the claim that the result never contains one. -/
theorem C9_counterexample :
    resolveDropboxPath "/Apps/LegalFormApp" "Cases/abc-123///doc.pdf"
      = "/Apps/LegalFormApp/Cases/abc-123//doc.pdf" ∧
    ∃ a b, resolveDropboxPath "/Apps/LegalFormApp" "Cases/abc-123///doc.pdf"
      = a ++ "//" ++ b :=
  ⟨by decide, "/Apps/LegalFormApp/Cases/abc-123", "doc.pdf", by decide⟩

/-- C9 (amended): upload_document resolves the destination path by
joining the configured base path and the relative path with a
separator and collapsing doubled separators in one non-overlapping
left-to-right textual pass — which yields exactly
/Apps/LegalFormApp/Cases/abc-123/doc.pdf on the documented example,
though a run of three or more separators can leave a doubled separator
in the result (see C9_counterexample). -/
theorem C9_path_resolution (cfg : DropboxConfig) (document_bytes : List Nat)
    (dropbox_path : String) (content : List Nat) (text : String)
    (hen : cfg.enabled = true) (htok : tokenTruthy cfg.access_token = true) :
    (upload_document cfg document_bytes dropbox_path
        (HttpOutcome.response 200 content text)).1.dropbox_path
      = some (resolveDropboxPath cfg.base_path dropbox_path) ∧
    resolveDropboxPath "/Apps/LegalFormApp" "Cases/abc-123/doc.pdf"
      = "/Apps/LegalFormApp/Cases/abc-123/doc.pdf" := by
  constructor
  · simp [upload_document, hen, htok]
  · decide

/-- C9 witness: the amended path-resolution statement evaluated on an
enabled, credentialed configuration with the documented base path. -/
theorem C9_path_resolution_witness :
    (upload_document
        { access_token := some "tok", base_path := "/Apps/LegalFormApp",
          enabled := true } [1, 2] "Cases/abc-123/doc.pdf"
        (HttpOutcome.response 200 [] "")).1.dropbox_path
      = some (resolveDropboxPath "/Apps/LegalFormApp" "Cases/abc-123/doc.pdf") ∧
    resolveDropboxPath "/Apps/LegalFormApp" "Cases/abc-123/doc.pdf"
      = "/Apps/LegalFormApp/Cases/abc-123/doc.pdf" :=
  C9_path_resolution
    { access_token := some "tok", base_path := "/Apps/LegalFormApp",
      enabled := true } [1, 2] "Cases/abc-123/doc.pdf" [] "" rfl (by decide)

/-- C10: a provider exception during the fetch step is caught by
fetch_case_data and becomes None, so generate_documents_for_case
reports the same failure as for a genuinely absent case: success
false, zero documents generated, and error exactly
"Case not found: " plus the case id — the two situations produce
identical pipeline results. -/
theorem C10_provider_exception_as_not_found (case_id timestamp : String)
    (e : String) (gen : Except String BatchGenResult)
    (upload_to_dropbox dropbox_enabled : Bool)
    (upl : Except String UploadBatchResult) :
    fetch_case_data (.error e) = none ∧
    (generate_documents_for_case case_id timestamp (fetch_case_data (.error e))
        gen upload_to_dropbox dropbox_enabled upl).error
      = some ("Case not found: " ++ case_id) ∧
    (generate_documents_for_case case_id timestamp (fetch_case_data (.error e))
        gen upload_to_dropbox dropbox_enabled upl).success = false ∧
    (generate_documents_for_case case_id timestamp (fetch_case_data (.error e))
        gen upload_to_dropbox dropbox_enabled upl).documents_generated = 0 ∧
    generate_documents_for_case case_id timestamp (fetch_case_data (.error e))
        gen upload_to_dropbox dropbox_enabled upl
      = generate_documents_for_case case_id timestamp (fetch_case_data (.ok none))
        gen upload_to_dropbox dropbox_enabled upl := by
  refine ⟨rfl, ?_, ?_, ?_, ?_⟩ <;>
    simp [fetch_case_data, generate_documents_for_case, dictTruthy]

theorem upload_document_calls (cfg : DropboxConfig) (b : List Nat) (p : String)
    (out : HttpOutcome) (hEn : cfg.enabled = true)
    (hTok : tokenTruthy cfg.access_token = true) :
    (upload_document cfg b p out).2 = 1 := by
  cases out with
  | response status content text =>
      cases h : status == 200 <;> simp [upload_document, hEn, hTok, h]
  | timeout msg => simp [upload_document, hEn, hTok]
  | requestError msg => simp [upload_document, hEn, hTok]
  | otherError msg => simp [upload_document, hEn, hTok]

theorem uploadLoop_stable (cfg : DropboxConfig) (case_id : String)
    (tr : Nat → HttpOutcome) (l : List RenderResult) :
    ∀ (res : UploadBatchResult) (calls : List UploadCall) (j : Nat),
    j < res.uploads.length →
    (uploadLoop cfg case_id tr l (res, calls)).1.uploads[j]? = res.uploads[j]? := by
  induction l with
  | nil => intro res calls j hj; simp [uploadLoop]
  | cons doc rest ih =>
      intro res calls j hj
      simp only [uploadLoop]
      split
      · refine (ih _ _ j ?_).trans ?_
        · simp
          omega
        · simp [List.getElem?_append, hj]
      · refine (ih _ _ j ?_).trans ?_
        · simp
          omega
        · simp [List.getElem?_append, hj]

theorem uploadLoop_skip_entry (cfg : DropboxConfig) (case_id : String)
    (tr : Nat → HttpOutcome) (l : List RenderResult) :
    ∀ (res : UploadBatchResult) (calls : List UploadCall) (i : Nat)
      (d : RenderResult) (j : Nat),
    l[i]? = some d → uploadSkip d = true → j = res.uploads.length + i →
    (uploadLoop cfg case_id tr l (res, calls)).1.uploads[j]?
      = some (syntheticEntry d.filename) := by
  induction l with
  | nil => intro res calls i d j hd _ _; simp at hd
  | cons doc rest ih =>
      intro res calls i d j hd hskip hj
      cases i with
      | zero =>
          obtain rfl : doc = d := by simpa using hd
          simp only [uploadLoop, hskip, if_true]
          refine (uploadLoop_stable cfg case_id tr rest _ _ j ?_).trans ?_
          · simp
            omega
          · subst hj
            simp
      | succ k =>
          simp only [List.getElem?_cons_succ] at hd
          simp only [uploadLoop]
          split
          · refine ih _ _ k d j hd hskip ?_
            simp
            omega
          · refine ih _ _ k d j hd hskip ?_
            simp
            omega

theorem uploadLoop_succ_countP (cfg : DropboxConfig) (case_id : String)
    (tr : Nat → HttpOutcome) (l : List RenderResult) :
    ∀ (res : UploadBatchResult) (calls : List UploadCall),
    res.successful = res.uploads.countP (fun e => e.success) →
    (uploadLoop cfg case_id tr l (res, calls)).1.successful
      = (uploadLoop cfg case_id tr l (res, calls)).1.uploads.countP
          (fun e => e.success) := by
  induction l with
  | nil => intro res calls h; simpa [uploadLoop] using h
  | cons doc rest ih =>
      intro res calls h
      simp only [uploadLoop]
      split
      · refine ih _ _ ?_
        simp [List.countP_append, List.countP_cons, h, syntheticEntry]
      · refine ih _ _ ?_
        simp only [List.countP_append, List.countP_cons, List.countP_nil, h,
          mergeEntry]
        split <;> simp_all

theorem uploadLoop_failed_countP (cfg : DropboxConfig) (case_id : String)
    (tr : Nat → HttpOutcome) (l : List RenderResult) :
    ∀ (res : UploadBatchResult) (calls : List UploadCall),
    res.failed = res.uploads.countP (fun e => !e.success) →
    (uploadLoop cfg case_id tr l (res, calls)).1.failed
      = (uploadLoop cfg case_id tr l (res, calls)).1.uploads.countP
          (fun e => !e.success) := by
  induction l with
  | nil => intro res calls h; simpa [uploadLoop] using h
  | cons doc rest ih =>
      intro res calls h
      simp only [uploadLoop]
      split
      · refine ih _ _ ?_
        simp [List.countP_append, List.countP_cons, h, syntheticEntry]
      · refine ih _ _ ?_
        simp only [List.countP_append, List.countP_cons, List.countP_nil, h,
          mergeEntry]
        split <;> simp_all

theorem uploadLoop_trace (cfg : DropboxConfig) (case_id : String)
    (tr : Nat → HttpOutcome) (hEn : cfg.enabled = true)
    (hTok : tokenTruthy cfg.access_token = true) (l : List RenderResult) :
    ∀ (res : UploadBatchResult) (calls : List UploadCall),
    (uploadLoop cfg case_id tr l (res, calls)).2
      = calls ++ (l.filter (fun d => !uploadSkip d)).map
          (fun d => { bytes := d.document.getD [],
                      path := "Cases/" ++ case_id ++ "/" ++ d.filename }) := by
  have hcall : ∀ (b : List Nat) (p : String) (o : HttpOutcome),
      (upload_document cfg b p o).2 = 1 :=
    fun b p o => upload_document_calls cfg b p o hEn hTok
  induction l with
  | nil => intro res calls; simp [uploadLoop]
  | cons doc rest ih =>
      intro res calls
      simp only [uploadLoop]
      split
      case isTrue hskip =>
          rw [ih _ _]
          simp [List.filter_cons, hskip]
      case isFalse hskip =>
          rw [ih _ _]
          simp [List.filter_cons, hskip, hcall]

/-- C8 (amended): for an enabled and credentialed client,
upload_case_documents yields one entry per input document in order;
every input document that did not render successfully or carries no
bytes yields at its position the synthetic failed-upload entry, whose
error is "Document generation failed" (the code capitalizes the first
word, unlike the claim's quoted string; see C8_counterexample) and
whose success flag is false; successful and failed count exactly the
succeeding and non-succeeding entries, so each synthetic entry is
counted as failed; and the network-call trace contains, in order,
exactly one upload per successfully rendered document, addressed to
the relative destination path Cases/caseId/filename — hence no network
call is made for a skipped document. -/
theorem C8_upload_batch_behaviour (cfg : DropboxConfig) (case_id : String)
    (documents : List RenderResult) (tr : Nat → HttpOutcome)
    (hEn : cfg.enabled = true) (hTok : tokenTruthy cfg.access_token = true) :
    (upload_case_documents cfg case_id documents tr).1.uploads.length
        = documents.length ∧
    (∀ (i : Nat) (d : RenderResult), documents[i]? = some d → uploadSkip d = true →
      (upload_case_documents cfg case_id documents tr).1.uploads[i]?
          = some (syntheticEntry d.filename) ∧
        (syntheticEntry d.filename).success = false ∧
        (syntheticEntry d.filename).error = some "Document generation failed") ∧
    (upload_case_documents cfg case_id documents tr).1.successful
        = (upload_case_documents cfg case_id documents tr).1.uploads.countP
            (fun e => e.success) ∧
    (upload_case_documents cfg case_id documents tr).1.failed
        = (upload_case_documents cfg case_id documents tr).1.uploads.countP
            (fun e => !e.success) ∧
    (upload_case_documents cfg case_id documents tr).2
        = (documents.filter (fun d => !uploadSkip d)).map
            (fun d => { bytes := d.document.getD [],
                        path := "Cases/" ++ case_id ++ "/" ++ d.filename }) := by
  simp only [upload_case_documents, hEn, Bool.not_true, Bool.false_eq_true,
    if_false]
  refine ⟨?_, ?_, ?_, ?_, ?_⟩
  · simpa using uploadLoop_uploads_len cfg case_id tr documents
      { total := documents.length, successful := 0, failed := 0, uploads := [] } []
  · intro i d hd hskip
    exact ⟨uploadLoop_skip_entry cfg case_id tr documents
      { total := documents.length, successful := 0, failed := 0, uploads := [] }
      [] i d i hd hskip (by simp), rfl, rfl⟩
  · exact uploadLoop_succ_countP cfg case_id tr documents
      { total := documents.length, successful := 0, failed := 0, uploads := [] }
      [] (by simp)
  · exact uploadLoop_failed_countP cfg case_id tr documents
      { total := documents.length, successful := 0, failed := 0, uploads := [] }
      [] (by simp)
  · simpa using uploadLoop_trace cfg case_id tr hEn hTok documents
      { total := documents.length, successful := 0, failed := 0, uploads := [] } []

/-- C8 witness: on an enabled, credentialed client and a one-element
list holding a failed render, the single entry is the synthetic one
and the network-call trace is empty. -/
theorem C8_upload_batch_behaviour_witness :
    (upload_case_documents
        { access_token := some "tok", base_path := "/Apps/LegalFormApp",
          enabled := true } "abc-123"
        [{ success := false, document := none,
           filename := "abc-123_ComplaintForm.pdf", size := 0,
           error := some "boom", template := "ComplaintForm.docx" }]
        (fun _ => HttpOutcome.response 200 [] "")).1.uploads[0]?
      = some (syntheticEntry "abc-123_ComplaintForm.pdf") ∧
    (upload_case_documents
        { access_token := some "tok", base_path := "/Apps/LegalFormApp",
          enabled := true } "abc-123"
        [{ success := false, document := none,
           filename := "abc-123_ComplaintForm.pdf", size := 0,
           error := some "boom", template := "ComplaintForm.docx" }]
        (fun _ => HttpOutcome.response 200 [] "")).2 = [] := by
  have h := C8_upload_batch_behaviour
    { access_token := some "tok", base_path := "/Apps/LegalFormApp",
      enabled := true } "abc-123"
    [{ success := false, document := none,
       filename := "abc-123_ComplaintForm.pdf", size := 0,
       error := some "boom", template := "ComplaintForm.docx" }]
    (fun _ => HttpOutcome.response 200 [] "") rfl (by decide)
  refine ⟨(h.2.1 0 _ rfl (by decide)).1, ?_⟩
  rw [h.2.2.2.2]
  decide

/-- C8 counterexample: the synthetic entry's error string produced by
the code is "Document generation failed" with a capital D, which is
not the string "document generation failed" the claim asserts. -/
theorem C8_counterexample :
    (upload_case_documents
        { access_token := some "tok", base_path := "/Apps/LegalFormApp",
          enabled := true } "abc-123"
        [{ success := false, document := none,
           filename := "abc-123_SummonsForm.pdf", size := 0,
           error := some "boom", template := "SummonsForm.docx" }]
        (fun _ => HttpOutcome.response 200 [] "")).1.uploads
      = [syntheticEntry "abc-123_SummonsForm.pdf"] ∧
    (syntheticEntry "abc-123_SummonsForm.pdf").error
      = some "Document generation failed" ∧
    (syntheticEntry "abc-123_SummonsForm.pdf").error
      ≠ some "document generation failed" := by
  refine ⟨by decide, rfl, by decide⟩
